import Mathlib

/-!
Shallow embedding of the `file-watcher-backup` program (`src/main.rs`).

The program is a single `main` together with one helper, `create_file_logger`.
We embed it as a pure function `startup : Env → List Action × Outcome` over an
environment record `Env` that records the result each I/O primitive would
return (the result of `std::fs::read`, of `create_dir_all`, of `fs::copy`, of
`Watcher::new` and `watcher.watch`, of the log-sink setup).  `startup` mirrors
the straight-line control flow of `main` up to the `loop`, producing the list
of observable actions (log calls at their severity, directory creations, file
copies, the watcher subscription attempt) and an `Outcome`: an explicit
`std::process::exit` with its code, a panic from an `unwrap`, or entry into
the watch loop carrying the destination file path the loop closes over.

The watch loop body (`loop { match rx.recv() ... } }`) is embedded as
`loop_body` on a single received value and `run_loop` folding it over a list
of received values, with an explicit `LoopControl` recording whether an arm
ends the loop (in the source no arm does).

Exit codes follow the `exitcode` crate: `NOINPUT = 66`, `IOERR = 74`.
-/

namespace FWB

inductive ErrorKind where
  | notFound
  | permissionDenied
  | other
  deriving Repr, DecidableEq

def NOINPUT : Nat := 66

def IOERR : Nat := 74

/-- The duration handed to `Watcher::new(tx, Duration::from_secs(1))`. -/
def debounce_interval_secs : Nat := 1

/-- Observable actions of the process, in program order. -/
inductive Action where
  | logTrace (m : String)
  | logDebug (m : String)
  | logInfo (m : String)
  | logError (m : String)
  | createLogDir
  | openLogFile
  | readFile (p : String)
  | createDestDir (d : String)
  | copyFile (src dst : String)
  | watcherNew (secs : Nat)
  | watchPath (p : String)
  deriving Repr, DecidableEq

inductive Outcome where
  | exited (code : Nat)
  | panicked
  | loopEntered (dst : String)
  deriving Repr, DecidableEq

/-- Oracle for every I/O operation `main` performs before the loop. -/
structure Env where
  srcPath : String
  destDir : String
  isTty : Bool
  termLoggerOk : Bool
  homeDir : Option String
  logDirCreateOk : Bool
  logFileOpenOk : Bool
  readSrc : Except ErrorKind (List Nat)
  createDestDirOk : Bool
  copyResult : String → String → Except ErrorKind Nat
  watcherNewOk : Bool
  watchResult : Option String

/-- Embedding of `create_file_logger`: returns `some ()` when a `WriteLogger`
was produced, `none` when any step (no home dir, log-dir creation, open of the
dated log file) fails.  The trace records the attempted log-dir creation and
file open. -/
def create_file_logger (env : Env) : List Action × Option Unit :=
  match env.homeDir with
  | none => ([], none)
  | some _ =>
    if env.logDirCreateOk then
      if env.logFileOpenOk then
        ([Action.createLogDir, Action.openLogFile], some ())
      else
        ([Action.createLogDir, Action.openLogFile], none)
    else
      ([Action.createLogDir], none)

/-- Split a character list at path separators. -/
def split_slash (cs : List Char) : List (List Char) :=
  cs.foldr (fun c acc =>
    if c = '/' then [] :: acc
    else match acc with
      | [] => [[c]]
      | g :: gs => (c :: g) :: gs) [[]]

/-- Embedding of Rust `Path::file_name`: the final path component (empty and
current-directory components skipped), `none` when the path is empty or ends
in a parent reference. -/
def file_name (p : String) : Option String :=
  let comps := (split_slash p.data).filter (fun c => c != [] && c != ['.'])
  match comps.getLast? with
  | none => none
  | some c => if c = ['.', '.'] then none else some (String.mk c)

/-- Embedding of `PathBuf::push` of a plain (relative, separator-free) file
name onto a directory path. -/
def path_push (dir name : String) : String :=
  if dir = "" then name
  else if dir.data.getLast? = some '/' then dir ++ name
  else dir ++ "/" ++ name

/-- The logging both copy sites perform on the result of `fs::copy` (the loop
arm reuses the literal message of the first copy, as the source does). -/
def copy_log_actions (r : Except ErrorKind Nat) : List Action :=
  match r with
  | Except.ok _ => [Action.logDebug "Copied bytes"]
  | Except.error _ => [Action.logDebug "copy error detail",
                      Action.logError "First copy failed"]

/-- Embedding of `main` from CLI parse up to (but not including) the `loop`.
`CombinedLogger::init(loggers).unwrap()` cannot fail at process start (no
global logger is set yet) and is not modelled as a failure point; the
`TermLogger::new(..).unwrap()` and `Watcher::new(..).unwrap()` panic points
are modelled. -/
def startup (env : Env) : List Action × Outcome :=
  if env.isTty && !env.termLoggerOk then
    ([], Outcome.panicked)
  else
    let logger := create_file_logger env
    let t0 := logger.1 ++ [Action.logDebug "Input path", Action.readFile env.srcPath]
    match env.readSrc with
    | Except.error ErrorKind.notFound =>
        (t0 ++ [Action.logError "File not found", Action.logTrace "read error detail"],
         Outcome.exited NOINPUT)
    | Except.error _ =>
        (t0 ++ [Action.logError "Error accessing file", Action.logTrace "read error detail"],
         Outcome.exited IOERR)
    | Except.ok _ =>
        let t1 := t0 ++ [Action.logInfo "Input file validated",
                         Action.logDebug "Destination dir",
                         Action.createDestDir env.destDir]
        if env.createDestDirOk then
          let t2 := t1 ++ [Action.logInfo "Destination dir setup completed"]
          match file_name env.srcPath with
          | none => (t2, Outcome.panicked)
          | some name =>
            let dst := path_push env.destDir name
            let t3 := t2 ++ [Action.logDebug "Initial copy", Action.copyFile env.srcPath dst]
                         ++ copy_log_actions (env.copyResult env.srcPath dst)
            if env.watcherNewOk then
              let t4 := t3 ++ [Action.watcherNew debounce_interval_secs,
                               Action.watchPath env.srcPath]
                           ++ (match env.watchResult with
                               | none => []
                               | some m =>
                                  [Action.logError (String.append "Error adding path to watcher. " m)])
              (t4, Outcome.loopEntered dst)
            else
              (t3 ++ [Action.watcherNew debounce_interval_secs], Outcome.panicked)
        else
          (t1 ++ [Action.logDebug "dir error detail",
                  Action.logError "Destination directory setup failed"],
           Outcome.exited IOERR)

/-- The debounced event kinds of the `notify` crate (v4) as delivered on the
channel. -/
inductive DebouncedEvent where
  | noticeWrite (p : String)
  | noticeRemove (p : String)
  | create (p : String)
  | write (p : String)
  | chmod (p : String)
  | remove (p : String)
  | renameEvent (src dst : String)
  | rescan
  | errorEvent (m : String)
  deriving Repr, DecidableEq

/-- Result of one `rx.recv()`: an event, or a channel read error. -/
inductive RecvResult where
  | ok (e : DebouncedEvent)
  | err (m : String)
  deriving Repr, DecidableEq

inductive LoopControl where
  | continueLoop
  | breakLoop (code : Nat)
  deriving Repr, DecidableEq

/-- One iteration of the watch loop body, parameterised by the `fs::copy`
oracle and the destination file path the loop closes over. -/
def loop_body (copyFn : String → String → Except ErrorKind Nat) (dst : String)
    (r : RecvResult) : List Action × LoopControl :=
  match r with
  | RecvResult.ok ev =>
      match ev with
      | DebouncedEvent.write p =>
          (Action.copyFile p dst :: copy_log_actions (copyFn p dst), LoopControl.continueLoop)
      | _ => ([], LoopControl.continueLoop)
  | RecvResult.err m =>
      ([Action.logError (String.append "Watch error. " m)], LoopControl.continueLoop)

/-- The watch loop run over a finite prefix of received values; stops early
only if some iteration breaks. -/
def run_loop (copyFn : String → String → Except ErrorKind Nat) (dst : String) :
    List RecvResult → List Action × LoopControl
  | [] => ([], LoopControl.continueLoop)
  | r :: rs =>
    match loop_body copyFn dst r with
    | (acts, LoopControl.continueLoop) =>
        (acts ++ (run_loop copyFn dst rs).1, (run_loop copyFn dst rs).2)
    | (acts, LoopControl.breakLoop c) => (acts, LoopControl.breakLoop c)

/-- Whole program: startup, then (when the loop is entered) the loop over the
received values, copying with the same oracle and the destination path
computed at startup. -/
def run_program (env : Env) (events : List RecvResult) : List Action × Outcome :=
  match startup env with
  | (acts, Outcome.loopEntered dst) =>
      (acts ++ (run_loop env.copyResult dst events).1, Outcome.loopEntered dst)
  | other => other

/-- The copies (source, destination) performed in a trace, in order. -/
def copies (acts : List Action) : List (String × String) :=
  acts.filterMap (fun a => match a with
    | Action.copyFile s d => some (s, d)
    | _ => none)

/-- The destination-directory creations attempted in a trace. -/
def dir_creations (acts : List Action) : List String :=
  acts.filterMap (fun a => match a with
    | Action.createDestDir d => some d
    | _ => none)

/-- The watcher subscription attempts in a trace. -/
def watch_attempts (acts : List Action) : List String :=
  acts.filterMap (fun a => match a with
    | Action.watchPath p => some p
    | _ => none)

def is_write : DebouncedEvent → Bool
  | DebouncedEvent.write _ => true
  | _ => false

/-- Modelled from the spec: the debounce mechanism lives in the external
`notify` crate (only its configuration, `Duration::from_secs(1)`, is in
`src/main.rs`).  Following spec section 4.3 it is a pure function from the
nondecreasing stream of raw write-event timestamps to the stream of emission
timestamps: an emission happens one window after an event that is not
followed by another event within the window. -/
def debounce (w : Nat) : List Nat → List Nat
  | [] => []
  | [t] => [t + w]
  | t :: t2 :: rest =>
      if t2 < t + w then debounce w (t2 :: rest)
      else (t + w) :: debounce w (t2 :: rest)

/-- The timestamp of the last event of a nonempty burst `t :: ts`. -/
def last_time (t : Nat) : List Nat → Nat
  | [] => t
  | x :: xs => last_time x xs

/-- The received values the loop sees when each debounced emission is
delivered as a write event for path `p`. -/
def write_events (p : String) (times : List Nat) : List RecvResult :=
  times.map (fun _ => RecvResult.ok (DebouncedEvent.write p))

/-- A copy oracle that always succeeds. -/
def copy_ok : String → String → Except ErrorKind Nat := fun _ _ => Except.ok 0

/-- A copy oracle that always fails. -/
def copy_fail : String → String → Except ErrorKind Nat := fun _ _ => Except.error ErrorKind.other

/-- Startup where every step succeeds except that `watcher.watch` rejects the
source path. -/
def envC1 : Env :=
  { srcPath := "watched.txt", destDir := "backup", isTty := false, termLoggerOk := true,
    homeDir := some "/home/u", logDirCreateOk := true, logFileOpenOk := true,
    readSrc := Except.ok [97], createDestDirOk := true,
    copyResult := fun _ _ => Except.ok 1, watcherNewOk := true,
    watchResult := some "path rejected" }

/-- Startup where reading the source file fails with not-found. -/
def envC3 : Env :=
  { srcPath := "missing.txt", destDir := "d3", isTty := false, termLoggerOk := true,
    homeDir := some "/home/u", logDirCreateOk := true, logFileOpenOk := true,
    readSrc := Except.error ErrorKind.notFound, createDestDirOk := true,
    copyResult := fun _ _ => Except.ok 1, watcherNewOk := true, watchResult := none }

/-- Startup where reading the source file fails with a permission error. -/
def envC3p : Env :=
  { srcPath := "s3.txt", destDir := "d3", isTty := false, termLoggerOk := true,
    homeDir := some "/home/u", logDirCreateOk := true, logFileOpenOk := true,
    readSrc := Except.error ErrorKind.permissionDenied, createDestDirOk := true,
    copyResult := fun _ _ => Except.ok 1, watcherNewOk := true, watchResult := none }

/-- Startup where the log sink cannot be opened and every other step succeeds. -/
def envC5 : Env :=
  { srcPath := "s5.txt", destDir := "d5", isTty := false, termLoggerOk := true,
    homeDir := some "/home/u", logDirCreateOk := true, logFileOpenOk := false,
    readSrc := Except.ok [98], createDestDirOk := true,
    copyResult := fun _ _ => Except.ok 1, watcherNewOk := true, watchResult := none }

/-- Startup where everything succeeds except the initial copy. -/
def envC6 : Env :=
  { srcPath := "n6.txt", destDir := "d6", isTty := false, termLoggerOk := true,
    homeDir := some "/home/u", logDirCreateOk := true, logFileOpenOk := true,
    readSrc := Except.ok [99], createDestDirOk := true,
    copyResult := fun _ _ => Except.error ErrorKind.other, watcherNewOk := true,
    watchResult := none }

/-- Fully successful startup. -/
def envC9 : Env :=
  { srcPath := "s9.txt", destDir := "d9", isTty := false, termLoggerOk := true,
    homeDir := some "/home/u", logDirCreateOk := true, logFileOpenOk := true,
    readSrc := Except.ok [100], createDestDirOk := true,
    copyResult := fun _ _ => Except.ok 1, watcherNewOk := true, watchResult := none }

/-! Helper lemmas about the observers and the loop. -/

theorem copies_append (a b : List Action) : copies (a ++ b) = copies a ++ copies b :=
  List.filterMap_append a b _

theorem dir_creations_append (a b : List Action) :
    dir_creations (a ++ b) = dir_creations a ++ dir_creations b :=
  List.filterMap_append a b _

theorem watch_attempts_append (a b : List Action) :
    watch_attempts (a ++ b) = watch_attempts a ++ watch_attempts b :=
  List.filterMap_append a b _

theorem logger_actions (env : Env) :
    ∀ a ∈ (create_file_logger env).1, a = Action.createLogDir ∨ a = Action.openLogFile := by
  unfold create_file_logger
  cases env.homeDir with
  | none => simp
  | some h =>
      cases hb : env.logDirCreateOk <;> cases hc : env.logFileOpenOk <;>
        simp [hb, hc]

theorem logger_trace_cases (env : Env) :
    (create_file_logger env).1 = [] ∨
    (create_file_logger env).1 = [Action.createLogDir] ∨
    (create_file_logger env).1 = [Action.createLogDir, Action.openLogFile] := by
  unfold create_file_logger
  cases env.homeDir with
  | none => simp
  | some h =>
      cases hb : env.logDirCreateOk <;> cases hc : env.logFileOpenOk <;>
        simp [hb, hc]

theorem copies_logger (env : Env) : copies (create_file_logger env).1 = [] := by
  unfold copies
  rw [List.filterMap_eq_nil_iff]
  intro a ha
  rcases logger_actions env a ha with h | h <;> subst h <;> rfl

theorem dir_creations_logger (env : Env) : dir_creations (create_file_logger env).1 = [] := by
  unfold dir_creations
  rw [List.filterMap_eq_nil_iff]
  intro a ha
  rcases logger_actions env a ha with h | h <;> subst h <;> rfl

theorem watch_attempts_logger (env : Env) : watch_attempts (create_file_logger env).1 = [] := by
  unfold watch_attempts
  rw [List.filterMap_eq_nil_iff]
  intro a ha
  rcases logger_actions env a ha with h | h <;> subst h <;> rfl

theorem copies_copy_log (r : Except ErrorKind Nat) : copies (copy_log_actions r) = [] := by
  cases r <;> rfl

theorem dir_creations_copy_log (r : Except ErrorKind Nat) :
    dir_creations (copy_log_actions r) = [] := by
  cases r <;> rfl

theorem watch_attempts_copy_log (r : Except ErrorKind Nat) :
    watch_attempts (copy_log_actions r) = [] := by
  cases r <;> rfl

theorem loop_body_continues (copyFn : String → String → Except ErrorKind Nat)
    (dst : String) (r : RecvResult) : (loop_body copyFn dst r).2 = LoopControl.continueLoop := by
  cases r with
  | ok ev => cases ev <;> rfl
  | err m => rfl

theorem run_loop_cons (copyFn : String → String → Except ErrorKind Nat)
    (dst : String) (r : RecvResult) (rs : List RecvResult) :
    run_loop copyFn dst (r :: rs) =
      ((loop_body copyFn dst r).1 ++ (run_loop copyFn dst rs).1,
       (run_loop copyFn dst rs).2) := by
  have h : loop_body copyFn dst r = ((loop_body copyFn dst r).1, LoopControl.continueLoop) := by
    rw [← loop_body_continues copyFn dst r]
  rw [run_loop, h]

theorem run_loop_control (copyFn : String → String → Except ErrorKind Nat)
    (dst : String) (rs : List RecvResult) :
    (run_loop copyFn dst rs).2 = LoopControl.continueLoop := by
  induction rs with
  | nil => rfl
  | cons r rs ih => rw [run_loop_cons]; exact ih

theorem run_loop_trace (copyFn : String → String → Except ErrorKind Nat)
    (dst : String) (rs : List RecvResult) :
    (run_loop copyFn dst rs).1 = (rs.map (fun r => (loop_body copyFn dst r).1)).flatten := by
  induction rs with
  | nil => rfl
  | cons r rs ih => rw [run_loop_cons]; simp [ih]

theorem copies_write_arm (copyFn : String → String → Except ErrorKind Nat)
    (dst p : String) :
    copies (loop_body copyFn dst (RecvResult.ok (DebouncedEvent.write p))).1 = [(p, dst)] := by
  show copies (Action.copyFile p dst :: copy_log_actions (copyFn p dst)) = [(p, dst)]
  show (p, dst) :: copies (copy_log_actions (copyFn p dst)) = [(p, dst)]
  rw [copies_copy_log]

theorem startup_outcome_success (env : Env) (name : String) (bs : List Nat)
    (ht : env.termLoggerOk = true) (hr : env.readSrc = Except.ok bs)
    (hd : env.createDestDirOk = true) (hn : file_name env.srcPath = some name)
    (hw : env.watcherNewOk = true) :
    (startup env).2 = Outcome.loopEntered (path_push env.destDir name) := by
  simp [startup, ht, hr, hd, hn, hw]

theorem startup_copies_success (env : Env) (name : String) (bs : List Nat)
    (ht : env.termLoggerOk = true) (hr : env.readSrc = Except.ok bs)
    (hd : env.createDestDirOk = true) (hn : file_name env.srcPath = some name)
    (hw : env.watcherNewOk = true) :
    copies (startup env).1 = [(env.srcPath, path_push env.destDir name)] := by
  rcases logger_trace_cases env with h | h | h <;>
    cases hc : env.copyResult env.srcPath (path_push env.destDir name) <;>
      cases hwr : env.watchResult <;>
        simp [startup, ht, hr, hd, hn, hw, hwr, h, hc, copies, copy_log_actions]

theorem startup_watch_attempts_success (env : Env) (name : String) (bs : List Nat)
    (ht : env.termLoggerOk = true) (hr : env.readSrc = Except.ok bs)
    (hd : env.createDestDirOk = true) (hn : file_name env.srcPath = some name)
    (hw : env.watcherNewOk = true) :
    watch_attempts (startup env).1 = [env.srcPath] := by
  rcases logger_trace_cases env with h | h | h <;>
    cases hc : env.copyResult env.srcPath (path_push env.destDir name) <;>
      cases hwr : env.watchResult <;>
        simp [startup, ht, hr, hd, hn, hw, hwr, h, hc, watch_attempts, copy_log_actions]

theorem startup_mem_watch (env : Env) (name : String) (bs : List Nat)
    (ht : env.termLoggerOk = true) (hr : env.readSrc = Except.ok bs)
    (hd : env.createDestDirOk = true) (hn : file_name env.srcPath = some name)
    (hw : env.watcherNewOk = true) :
    Action.watchPath env.srcPath ∈ (startup env).1 := by
  cases hwr : env.watchResult <;> simp [startup, ht, hr, hd, hn, hw, hwr]

theorem startup_mem_watch_err_log (env : Env) (name m : String) (bs : List Nat)
    (ht : env.termLoggerOk = true) (hr : env.readSrc = Except.ok bs)
    (hd : env.createDestDirOk = true) (hn : file_name env.srcPath = some name)
    (hw : env.watcherNewOk = true) (hwr : env.watchResult = some m) :
    Action.logError (String.append "Error adding path to watcher. " m) ∈ (startup env).1 := by
  simp [startup, ht, hr, hd, hn, hw, hwr]

theorem startup_mem_copy_fail_log (env : Env) (name : String) (bs : List Nat)
    (e : ErrorKind)
    (ht : env.termLoggerOk = true) (hr : env.readSrc = Except.ok bs)
    (hd : env.createDestDirOk = true) (hn : file_name env.srcPath = some name)
    (hw : env.watcherNewOk = true)
    (hc : env.copyResult env.srcPath (path_push env.destDir name) = Except.error e) :
    Action.logError "First copy failed" ∈ (startup env).1 := by
  cases hwr : env.watchResult <;>
    simp [startup, ht, hr, hd, hn, hw, hwr, hc, copy_log_actions]

theorem loop_body_copies_dst (copyFn : String → String → Except ErrorKind Nat)
    (dst : String) (r : RecvResult) :
    ∀ sd ∈ copies (loop_body copyFn dst r).1, sd.2 = dst := by
  cases r with
  | ok ev =>
      cases ev with
      | write p => rw [copies_write_arm]; simp
      | noticeWrite p => simp [loop_body, copies]
      | noticeRemove p => simp [loop_body, copies]
      | create p => simp [loop_body, copies]
      | chmod p => simp [loop_body, copies]
      | remove p => simp [loop_body, copies]
      | renameEvent a b => simp [loop_body, copies]
      | rescan => simp [loop_body, copies]
      | errorEvent m => simp [loop_body, copies]
  | err m => simp [loop_body, copies]

theorem run_loop_copies_dst (copyFn : String → String → Except ErrorKind Nat)
    (dst : String) (rs : List RecvResult) :
    ∀ sd ∈ copies (run_loop copyFn dst rs).1, sd.2 = dst := by
  induction rs with
  | nil => simp [run_loop, copies]
  | cons r rs ih =>
      intro sd hsd
      rw [run_loop_cons] at hsd
      simp only [copies_append, List.mem_append] at hsd
      rcases hsd with h | h
      · exact loop_body_copies_dst copyFn dst r sd h
      · exact ih sd h

theorem debounce_burst (w t : Nat) (ts : List Nat)
    (h : List.Chain' (fun a b => b < a + w) (t :: ts)) :
    debounce w (t :: ts) = [last_time t ts + w] := by
  induction ts generalizing t with
  | nil => simp [debounce, last_time]
  | cons t2 rest ih =>
      rw [List.chain'_cons] at h
      simp [debounce, h.1, last_time, ih t2 h.2]

/-! The claims. -/

/-- C1 counterexample: with the OS watch API rejecting the source path and every
other startup step succeeding, the process does not terminate with an exit
status: it enters the watch loop. -/
theorem C1_counterexample :
    (startup envC1).2 = Outcome.loopEntered "backup/watched.txt" := by decide

/-- C1 (amended): if the watch subscription cannot be established, the failure
is logged with a message distinct from the event-delivery error message, the
subscription is attempted exactly once (never retried), but the process does
not terminate: it still enters the watch loop. -/
theorem C1_amended (env : Env) (name m : String) (bs : List Nat)
    (ht : env.termLoggerOk = true) (hr : env.readSrc = Except.ok bs)
    (hd : env.createDestDirOk = true) (hn : file_name env.srcPath = some name)
    (hw : env.watcherNewOk = true) (hwr : env.watchResult = some m) :
    Action.logError (String.append "Error adding path to watcher. " m) ∈ (startup env).1
    ∧ (startup env).2 = Outcome.loopEntered (path_push env.destDir name)
    ∧ watch_attempts (startup env).1 = [env.srcPath] :=
  ⟨startup_mem_watch_err_log env name m bs ht hr hd hn hw hwr,
   startup_outcome_success env name bs ht hr hd hn hw,
   startup_watch_attempts_success env name bs ht hr hd hn hw⟩

/-- C1 witness: the amended claim at the concrete environment `envC1`. -/
theorem C1_witness :
    envC1.watchResult = some "path rejected"
    ∧ Action.logError (String.append "Error adding path to watcher. " "path rejected")
        ∈ (startup envC1).1
    ∧ (startup envC1).2 = Outcome.loopEntered (path_push "backup" "watched.txt")
    ∧ watch_attempts (startup envC1).1 = ["watched.txt"] := by
  have h := C1_amended envC1 "watched.txt" "path rejected" [97] rfl rfl rfl (by decide) rfl rfl
  exact ⟨rfl, h.1, h.2.1, h.2.2⟩

/-- C2 counterexample: a non-write event kind (a remove) is absorbed but the
loop emits no log action for it, contrary to the claim that every non-write
event kind is logged. -/
theorem C2_counterexample :
    run_loop copy_ok "backup/watched.txt"
        [RecvResult.ok (DebouncedEvent.remove "watched.txt")]
      = ([], LoopControl.continueLoop) := by decide

/-- C2 (amended): the watch loop never exits on a transient error: every
iteration continues and the whole event sequence is processed; a channel read
error is logged, a failed copy attempt is logged, and a non-write event kind
is absorbed silently (without logging). -/
theorem C2_amended (copyFn : String → String → Except ErrorKind Nat) (dst : String)
    (rs : List RecvResult) :
    (run_loop copyFn dst rs).2 = LoopControl.continueLoop
    ∧ (run_loop copyFn dst rs).1 = (rs.map (fun r => (loop_body copyFn dst r).1)).flatten
    ∧ (∀ m, (loop_body copyFn dst (RecvResult.err m)).1
          = [Action.logError (String.append "Watch error. " m)])
    ∧ (∀ p e, copyFn p dst = Except.error e →
          Action.logError "First copy failed"
            ∈ (loop_body copyFn dst (RecvResult.ok (DebouncedEvent.write p))).1)
    ∧ (∀ ev, is_write ev = false → (loop_body copyFn dst (RecvResult.ok ev)).1 = []) := by
  refine ⟨run_loop_control copyFn dst rs, run_loop_trace copyFn dst rs,
          fun m => rfl, ?_, ?_⟩
  · intro p e hc
    simp [loop_body, hc, copy_log_actions]
  · intro ev hev
    cases ev <;> simp_all [is_write, loop_body]

/-- C2 witness: the amended claim at a concrete copy oracle and event list. -/
theorem C2_witness :
    (run_loop copy_fail "d2" [RecvResult.err "boom"]).2 = LoopControl.continueLoop
    ∧ Action.logError "First copy failed"
        ∈ (loop_body copy_fail "d2" (RecvResult.ok (DebouncedEvent.write "p2"))).1 := by
  have h := C2_amended copy_fail "d2" [RecvResult.err "boom"]
  exact ⟨h.1, h.2.2.2.1 "p2" ErrorKind.other rfl⟩

/-- C3: at startup, a not-found error reading the source exits with the NOINPUT
status before any destination-directory creation or copy; any other read error
exits with the IOERR status. -/
theorem C3_spec (env : Env) (k : ErrorKind)
    (ht : env.termLoggerOk = true)
    (hk : env.readSrc = Except.error k) :
    (k = ErrorKind.notFound →
       (startup env).2 = Outcome.exited NOINPUT
       ∧ dir_creations (startup env).1 = []
       ∧ copies (startup env).1 = [])
    ∧ (k ≠ ErrorKind.notFound → (startup env).2 = Outcome.exited IOERR) := by
  constructor
  · intro h
    subst h
    rcases logger_trace_cases env with hl | hl | hl <;>
      simp [startup, ht, hk, hl, dir_creations, copies]
  · intro h
    cases k with
    | notFound => exact absurd rfl h
    | permissionDenied => simp [startup, ht, hk]
    | other => simp [startup, ht, hk]

/-- C3 witness: both statuses at concrete environments. -/
theorem C3_witness :
    envC3.readSrc = Except.error ErrorKind.notFound
    ∧ (startup envC3).2 = Outcome.exited NOINPUT
    ∧ dir_creations (startup envC3).1 = []
    ∧ copies (startup envC3).1 = []
    ∧ envC3p.readSrc = Except.error ErrorKind.permissionDenied
    ∧ (startup envC3p).2 = Outcome.exited IOERR := by
  have h1 := (C3_spec envC3 ErrorKind.notFound rfl rfl).1 rfl
  have h2 := (C3_spec envC3p ErrorKind.permissionDenied rfl rfl).2 (by decide)
  exact ⟨rfl, h1.1, h1.2.1, h1.2.2, rfl, h2⟩

/-- C4: in the watch loop a copy is invoked if and only if the received value
is a write event; the copy then goes from the carried path to the loop
destination, and every iteration leaves the loop running. -/
theorem C4_spec (copyFn : String → String → Except ErrorKind Nat) (dst : String)
    (r : RecvResult) :
    (copies (loop_body copyFn dst r).1 ≠ []
       ↔ ∃ p, r = RecvResult.ok (DebouncedEvent.write p))
    ∧ (loop_body copyFn dst r).2 = LoopControl.continueLoop
    ∧ (∀ p, r = RecvResult.ok (DebouncedEvent.write p) →
         copies (loop_body copyFn dst r).1 = [(p, dst)]) := by
  refine ⟨?_, loop_body_continues copyFn dst r, ?_⟩
  · cases r with
    | ok ev => cases ev <;> simp [loop_body, copies]
    | err m => simp [loop_body, copies]
  · intro p hp
    subst hp
    exact copies_write_arm copyFn dst p

/-- C4 witness: the claim at a concrete write event. -/
theorem C4_witness :
    copies (loop_body copy_ok "d4" (RecvResult.ok (DebouncedEvent.write "s4"))).1
      = [("s4", "d4")] :=
  (C4_spec copy_ok "d4" (RecvResult.ok (DebouncedEvent.write "s4"))).2.2 "s4" rfl

/-- C5 counterexample: with the log sink failing to open and every other startup
step succeeding, the process does not exit with IOERR; the file logger is
omitted and the watch loop is entered. -/
theorem C5_counterexample :
    (create_file_logger envC5).2 = none
    ∧ (startup envC5).2 = Outcome.loopEntered "d5/s5.txt"
    ∧ (startup envC5).2 ≠ Outcome.exited IOERR := by decide

/-- C5 (amended): when the log sink cannot be opened at startup no file logger
is produced and the process does not terminate for that reason: with the
remaining startup steps succeeding it still enters the watch loop. -/
theorem C5_amended (env : Env) (name : String) (bs : List Nat)
    (hlog : env.logFileOpenOk = false)
    (ht : env.termLoggerOk = true) (hr : env.readSrc = Except.ok bs)
    (hd : env.createDestDirOk = true) (hn : file_name env.srcPath = some name)
    (hw : env.watcherNewOk = true) :
    (create_file_logger env).2 = none
    ∧ (startup env).2 = Outcome.loopEntered (path_push env.destDir name) := by
  constructor
  · unfold create_file_logger
    cases hh : env.homeDir with
    | none => simp
    | some x => cases hb : env.logDirCreateOk <;> simp [hb, hlog]
  · exact startup_outcome_success env name bs ht hr hd hn hw

/-- C5 witness: the amended claim at the concrete environment `envC5`. -/
theorem C5_witness :
    envC5.logFileOpenOk = false
    ∧ (create_file_logger envC5).2 = none
    ∧ (startup envC5).2 = Outcome.loopEntered (path_push "d5" "s5.txt") := by
  have h := C5_amended envC5 "s5.txt" [98] rfl rfl rfl rfl (by decide) rfl
  exact ⟨rfl, h.1, h.2⟩

/-- C6: after successful validation exactly one unconditional initial copy of
the source to the destination file path happens before the loop; even when it
fails (the copy oracle is unconstrained) the failure is only logged, the
watch subscription is still attempted and the loop is still entered. -/
theorem C6_spec (env : Env) (name : String) (bs : List Nat)
    (ht : env.termLoggerOk = true) (hr : env.readSrc = Except.ok bs)
    (hd : env.createDestDirOk = true) (hn : file_name env.srcPath = some name)
    (hw : env.watcherNewOk = true) :
    copies (startup env).1 = [(env.srcPath, path_push env.destDir name)]
    ∧ (startup env).2 = Outcome.loopEntered (path_push env.destDir name)
    ∧ Action.watchPath env.srcPath ∈ (startup env).1
    ∧ ∀ e, env.copyResult env.srcPath (path_push env.destDir name) = Except.error e →
        Action.logError "First copy failed" ∈ (startup env).1 :=
  ⟨startup_copies_success env name bs ht hr hd hn hw,
   startup_outcome_success env name bs ht hr hd hn hw,
   startup_mem_watch env name bs ht hr hd hn hw,
   fun e he => startup_mem_copy_fail_log env name bs e ht hr hd hn hw he⟩

/-- C6 witness: the claim at `envC6`, whose initial copy fails. -/
theorem C6_witness :
    envC6.copyResult "n6.txt" (path_push "d6" "n6.txt") = Except.error ErrorKind.other
    ∧ copies (startup envC6).1 = [("n6.txt", path_push "d6" "n6.txt")]
    ∧ (startup envC6).2 = Outcome.loopEntered (path_push "d6" "n6.txt")
    ∧ Action.logError "First copy failed" ∈ (startup envC6).1 := by
  have h := C6_spec envC6 "n6.txt" [99] rfl rfl rfl (by decide) rfl
  exact ⟨rfl, h.1, h.2.1, h.2.2.2 ErrorKind.other rfl⟩

/-- C7: for a burst of at least two write events within one debounce window,
the modelled debouncer emits exactly one event, one window after the last
event of the burst; the loop then performs exactly one copy, and the content
read at the emission time is the source content as of the end of the burst. -/
theorem C7_spec (w t : Nat) (ts : List Nat) (contentAt : Nat → List Nat)
    (copyFn : String → String → Except ErrorKind Nat) (dst p : String)
    (_hne : ts ≠ [])
    (hburst : List.Chain' (fun a b => b < a + w) (t :: ts))
    (hstable : ∀ u, last_time t ts ≤ u → contentAt u = contentAt (last_time t ts)) :
    debounce w (t :: ts) = [last_time t ts + w]
    ∧ (copies (run_loop copyFn dst (write_events p (debounce w (t :: ts)))).1).length = 1
    ∧ (debounce w (t :: ts)).map contentAt = [contentAt (last_time t ts)] := by
  have hd := debounce_burst w t ts hburst
  refine ⟨hd, ?_, ?_⟩
  · rw [hd]
    have h1 : write_events p [last_time t ts + w]
        = [RecvResult.ok (DebouncedEvent.write p)] := rfl
    rw [h1, run_loop_cons]
    have h2 : (run_loop copyFn dst ([] : List RecvResult)).1 = [] := rfl
    simp only [h2, List.append_nil]
    rw [copies_write_arm]
    rfl
  · rw [hd]
    simp only [List.map_cons, List.map_nil]
    rw [hstable (last_time t ts + w) (Nat.le_add_right _ _)]

/-- C7 witness: a two-event burst at the configured one-second window. -/
theorem C7_witness :
    ([0] : List Nat) ≠ []
    ∧ List.Chain' (fun a b => b < a + debounce_interval_secs) [0, 0]
    ∧ debounce debounce_interval_secs [0, 0] = [last_time 0 [0] + debounce_interval_secs]
    ∧ (copies (run_loop copy_ok "d7"
        (write_events "p7" (debounce debounce_interval_secs [0, 0]))).1).length = 1 := by
  have hch : List.Chain' (fun a b => b < a + debounce_interval_secs) [0, 0] := by
    simp [List.chain'_cons, List.chain'_singleton, debounce_interval_secs]
  have h := C7_spec debounce_interval_secs 0 [0] (fun _ => [7]) copy_ok "d7" "p7"
    (by decide) hch (fun u _ => rfl)
  exact ⟨by decide, hch, h.1, h.2.1⟩

/-- C8 counterexample: a non-write event (a create of the watched path) yields
an empty action list: nothing is passed on for logging or diagnostics. -/
theorem C8_counterexample :
    (loop_body copy_ok "d8" (RecvResult.ok (DebouncedEvent.create "w8"))).1 = [] := by decide

/-- C8 (amended): every non-write event kind received by the watch loop
triggers no copy and is silently skipped: the loop emits no action at all for
it and continues. -/
theorem C8_amended (copyFn : String → String → Except ErrorKind Nat) (dst : String)
    (ev : DebouncedEvent) (h : is_write ev = false) :
    loop_body copyFn dst (RecvResult.ok ev) = ([], LoopControl.continueLoop)
    ∧ copies (loop_body copyFn dst (RecvResult.ok ev)).1 = [] := by
  cases ev <;> simp_all [is_write, loop_body, copies]

/-- C8 witness: the amended claim at a concrete non-write event. -/
theorem C8_witness :
    is_write (DebouncedEvent.noticeRemove "w8w") = false
    ∧ loop_body copy_ok "d8w" (RecvResult.ok (DebouncedEvent.noticeRemove "w8w"))
        = ([], LoopControl.continueLoop) := by
  have h := C8_amended copy_ok "d8w" (DebouncedEvent.noticeRemove "w8w") rfl
  exact ⟨rfl, h.1⟩

/-- C9: the destination file path is the destination directory joined with the
base name of the source path, fixed at startup; every copy the program ever
performs (the initial sync and every loop copy) writes to that same path. -/
theorem C9_spec (env : Env) (events : List RecvResult) (name : String) (bs : List Nat)
    (ht : env.termLoggerOk = true) (hr : env.readSrc = Except.ok bs)
    (hd : env.createDestDirOk = true) (hn : file_name env.srcPath = some name)
    (hw : env.watcherNewOk = true) :
    (startup env).2 = Outcome.loopEntered (path_push env.destDir name)
    ∧ ∀ sd ∈ copies (run_program env events).1, sd.2 = path_push env.destDir name := by
  have ho := startup_outcome_success env name bs ht hr hd hn hw
  refine ⟨ho, ?_⟩
  have hse : startup env
      = ((startup env).1, Outcome.loopEntered (path_push env.destDir name)) := by
    rw [← ho]
  have hrp : (run_program env events).1
      = (startup env).1
        ++ (run_loop env.copyResult (path_push env.destDir name) events).1 := by
    unfold run_program
    rw [hse]
  intro sd hsd
  rw [hrp, copies_append, List.mem_append] at hsd
  rcases hsd with h | h
  · rw [startup_copies_success env name bs ht hr hd hn hw] at h
    rcases List.mem_singleton.mp h with rfl
    rfl
  · exact run_loop_copies_dst env.copyResult (path_push env.destDir name) events sd h

/-- C9 witness: the claim at the concrete environment `envC9`, with a loop
event carrying a different path. -/
theorem C9_witness :
    file_name envC9.srcPath = some "s9.txt"
    ∧ (startup envC9).2 = Outcome.loopEntered (path_push "d9" "s9.txt") := by
  have h := C9_spec envC9 [RecvResult.ok (DebouncedEvent.write "other.txt")]
    "s9.txt" [100] rfl rfl rfl (by decide) rfl
  exact ⟨by decide, h.1⟩

/-- C10: for a write event the copy goes from the path carried in the event
itself (whatever it is, not the validated CLI source path) to the loop
destination path, and the copy oracle is consulted at exactly that pair. -/
theorem C10_spec (copyFn : String → String → Except ErrorKind Nat) (dst p : String) :
    (loop_body copyFn dst (RecvResult.ok (DebouncedEvent.write p))).1
      = Action.copyFile p dst :: copy_log_actions (copyFn p dst)
    ∧ copies (loop_body copyFn dst (RecvResult.ok (DebouncedEvent.write p))).1
      = [(p, dst)] :=
  ⟨rfl, copies_write_arm copyFn dst p⟩

end FWB
